import Mathlib

/-!
A formal model of the scriptify command/pipeline engine
(`src/cmd/mod.rs`, `src/cmd/pipeline.rs`, `src/cmd/status.rs`), together
with theorems about its builders, environment handling, pipe wiring,
failure policy and status reporting.

Machine-level effects (process spawning, pipe creation, waiting, reads
and writes) are modelled by an explicit oracle (`OS`) describing how each
OS call would respond; the orchestration code is translated statement by
statement into total functions over that oracle, recording the observable
actions: the stage configurations actually spawned, the pipes created,
how many children were waited on, and whether external input was fed by a
background thread or written synchronously on the calling thread.
-/

namespace Scriptify

/-- Exit state of one OS process: a normal exit carrying a code, or
termination by a signal (`std::process::ExitStatus`). -/
inductive ExitStatus where
  | exited (code : Int)
  | signaled (sig : Int)
  deriving DecidableEq, Repr

/-- `ExitStatus::success`: true exactly for a normal exit with code 0. -/
def ExitStatus.success : ExitStatus → Bool
  | .exited c => c == 0
  | .signaled _ => false

/-- `ExitStatus::code`: the exit code when the process exited normally,
nothing for a signal-terminated process. -/
def ExitStatus.code : ExitStatus → Option Int
  | .exited c => some c
  | .signaled _ => none

/-- `Status` (src/cmd/status.rs:3): per-stage exit results in spawn order. -/
structure Status where
  stages : List ExitStatus
  deriving DecidableEq, Repr

/-- The loop body of `Status::success` (src/cmd/status.rs:7-14): scan the
statuses, returning `false` at the first non-successful one. -/
def successScan : List ExitStatus → Bool
  | [] => true
  | st :: rest => if !st.success then false else successScan rest

/-- `Status::success` (src/cmd/status.rs:7-14). -/
def Status.success (s : Status) : Bool := successScan s.stages

/-- `Status::code` (src/cmd/status.rs:17-19):
`self.0.iter().flat_map(|status| status.code())`. -/
def Status.code (s : Status) : List Int :=
  s.stages.flatMap (fun st => st.code.toList)

/-- `PipeMode` (src/cmd/mod.rs:58-77): which output stream(s) of a stage
feed the next stage's stdin. -/
inductive PipeMode where
  | Stdout
  | Stderr
  | Both
  deriving DecidableEq, Repr

/-- `Cmd` (src/cmd/mod.rs:12-20): program, arguments, environment
overrides, optional working directory, optional input, echo flag. -/
structure Cmd where
  program : String
  args : List String
  envs : List (String × String)
  currentDir : Option String
  input : Option String
  quiet : Bool
  deriving DecidableEq, Repr

/-- `Cmd::new` (src/cmd/mod.rs:121-130): accepts any program string with
no validation, recording it verbatim. -/
def Cmd.new (program : String) : Cmd :=
  { program := program, args := [], envs := [], currentDir := none,
    input := none, quiet := false }

/-- `Cmd::arg` (src/cmd/mod.rs:147-150). -/
def Cmd.arg (c : Cmd) (a : String) : Cmd := { c with args := c.args ++ [a] }

/-- `Cmd::env` (src/cmd/mod.rs:165-169): pushes the pair onto the override
list. -/
def Cmd.env (c : Cmd) (key val : String) : Cmd :=
  { c with envs := c.envs ++ [(key, val)] }

/-- `Cmd::current_dir` (src/cmd/mod.rs:172-175). -/
def Cmd.current_dir (c : Cmd) (dir : String) : Cmd :=
  { c with currentDir := some dir }

/-- `Cmd::input` (src/cmd/mod.rs:178-181); named `setInput` here because
the Lean projection `Cmd.input` already carries the Rust field's name. -/
def Cmd.setInput (c : Cmd) (s : String) : Cmd := { c with input := some s }

/-- `Cmd::quiet` (src/cmd/mod.rs:184-187). -/
def Cmd.setQuiet (c : Cmd) : Cmd := { c with quiet := true }

/-- `Pipeline` (src/cmd/mod.rs:80-85): the mode stored with each command
is the mode of the edge *entering* it (`connections[i].1` says how
`connections[i-1]` pipes into `connections[i]`); the first entry's mode is
never read. -/
structure Pipeline where
  connections : List (Cmd × PipeMode)
  input : Option String
  quiet : Bool
  deriving DecidableEq, Repr

/-- `Cmd::pipe` (src/cmd/mod.rs:190-197). -/
def Cmd.pipe (c next : Cmd) : Pipeline :=
  { connections := [(c, .Stdout), (next, .Stdout)], input := none, quiet := c.quiet }

/-- `Cmd::pipe_stderr` (src/cmd/mod.rs:215-222). -/
def Cmd.pipe_stderr (c next : Cmd) : Pipeline :=
  { connections := [(c, .Stdout), (next, .Stderr)], input := none, quiet := c.quiet }

/-- `Cmd::pipe_both` (src/cmd/mod.rs:240-247). -/
def Cmd.pipe_both (c next : Cmd) : Pipeline :=
  { connections := [(c, .Stdout), (next, .Both)], input := none, quiet := c.quiet }

/-- `Pipeline::pipe` (src/cmd/mod.rs:408-411). -/
def Pipeline.pipe (p : Pipeline) (c : Cmd) : Pipeline :=
  { p with connections := p.connections ++ [(c, .Stdout)] }

/-- `Pipeline::pipe_stderr` (src/cmd/mod.rs:414-417). -/
def Pipeline.pipe_stderr (p : Pipeline) (c : Cmd) : Pipeline :=
  { p with connections := p.connections ++ [(c, .Stderr)] }

/-- `Pipeline::pipe_both` (src/cmd/mod.rs:420-423). -/
def Pipeline.pipe_both (p : Pipeline) (c : Cmd) : Pipeline :=
  { p with connections := p.connections ++ [(c, .Both)] }

/-- `Pipeline::input` (src/cmd/mod.rs:426-429); named `setInput` for the
same reason as `Cmd.setInput`. -/
def Pipeline.setInput (p : Pipeline) (s : String) : Pipeline :=
  { p with input := some s }

/-- Insert-with-overwrite into the environment map of a
`std::process::Command` (the semantics of `Command::env`: an existing
binding for the key is replaced). -/
def envInsert (m : List (String × String)) (key val : String) :
    List (String × String) :=
  m.filter (fun p => !(p.1 == key)) ++ [(key, val)]

/-- The effective environment-override map obtained by replaying the
override list through `Command::env`, as `build_std_command_static`
(src/cmd/mod.rs:617-630) does with its `for (key, val) in &cmd_def.envs`
loop. -/
def buildEnvMap (envs : List (String × String)) : List (String × String) :=
  envs.foldl (fun m kv => envInsert m kv.1 kv.2) []

/-- Look a key up in an environment map. -/
def envLookup (m : List (String × String)) (key : String) : Option String :=
  (m.find? (fun p => p.1 == key)).map (fun p => p.2)

/-- The builder operations available on `Cmd` (src/cmd/mod.rs:147-187):
`arg`, `args`, `env`, `current_dir`, `input` and `quiet`. `args` is the
batch form pushing each argument in turn (src/cmd/mod.rs:153-162). This
is the complete set of `Cmd`-returning builder methods in the source. -/
inductive CmdOp where
  | arg (a : String)
  | args (l : List String)
  | env (key val : String)
  | current_dir (d : String)
  | input (s : String)
  | quiet

/-- Apply one builder operation. -/
def CmdOp.apply (c : Cmd) : CmdOp → Cmd
  | .arg a => c.arg a
  | .args l => l.foldl Cmd.arg c
  | .env k v => c.env k v
  | .current_dir d => c.current_dir d
  | .input s => c.setInput s
  | .quiet => c.setQuiet

/-- Apply a sequence of builder operations left to right. -/
def Cmd.applyOps (c : Cmd) (ops : List CmdOp) : Cmd :=
  ops.foldl CmdOp.apply c

/-- How one standard stream of a spawned stage is configured. `pipeWrite n`
and `pipeRead n` are the two ends of the n-th OS pipe created by the
orchestrator; `pipeWriteDup n` is a `try_clone` duplicate of that pipe's
write end; `piped` is `Stdio::piped()`; `inherit` is the untouched
default. -/
inductive StdioSpec where
  | inherit
  | piped
  | pipeWrite (id : Nat)
  | pipeWriteDup (id : Nat)
  | pipeRead (id : Nat)
  deriving DecidableEq, Repr

/-- The `std::process::Command` value assembled for one stage. -/
structure StdCommandModel where
  program : String
  args : List String
  env : List (String × String)
  cwd : Option String
  stdin : StdioSpec
  stdout : StdioSpec
  stderr : StdioSpec
  deriving DecidableEq, Repr

/-- `Pipeline::build_std_command_static` (src/cmd/mod.rs:617-630): program
and args copied over, the env overrides replayed into the command's
environment map, the optional working directory set, and all three
standard streams still at their default. -/
def build_std_command_static (c : Cmd) : StdCommandModel :=
  { program := c.program, args := c.args, env := buildEnvMap c.envs,
    cwd := c.currentDir, stdin := .inherit, stdout := .inherit,
    stderr := .inherit }

/-- `cmd::Error` (src/cmd/mod.rs:88-92): a message plus an optional
underlying OS error (modelled by its message string). -/
structure Error where
  message : String
  source : Option String
  deriving DecidableEq, Repr

/-- Oracle describing how the operating system answers each call the
engine makes: the outcome of spawning stage `i`, of creating or
duplicating pipe `id`, of waiting on stage `i`, of writing input to a
child's stdin, and of reading the captured stdout of the last stage. -/
structure OS where
  spawnErr : Nat → Option String
  pipeErr : Nat → Option String
  cloneErr : Nat → Option String
  waitRes : Nat → Except String ExitStatus
  writeErr : Option String
  readErr : Option String
  readBytes : List UInt8

/-- Mutable state of the spawn loop in `try_native_pipeline`
(src/cmd/mod.rs:495-496): the children spawned so far (with their full
stdio configuration), the pending `prev_reader` pipe end, the next fresh
pipe id, and — as instrumentation — the number of children that had been
spawned at the moment the background input thread was started. -/
structure SpawnState where
  children : List StdCommandModel
  prevReader : Option Nat
  nextPipeId : Nat
  inputThreadAt : Option Nat
  deriving DecidableEq, Repr

/-- The state before the first loop iteration. -/
def initialSpawnState : SpawnState :=
  { children := [], prevReader := none, nextPipeId := 0, inputThreadAt := none }

/-- Observable outcome of an execution: the result returned to the
caller, the stage configurations actually spawned (in spawn order), how
many children were waited on (always an order-respecting prefix of the
spawned children), the number of children already spawned when the
background input-feeding thread started (`none` when no such thread ran),
whether input was instead written synchronously on the calling thread,
and how many OS pipes were created. -/
structure RunResult where
  result : Except Error (List UInt8)
  children : List StdCommandModel
  waitedCount : Nat
  inputThreadAt : Option Nat
  syncWrite : Bool
  pipesCreated : Nat

/-- Whether a run returned an error to the caller. -/
def RunResult.failed (r : RunResult) : Bool :=
  match r.result with
  | .error _ => true
  | .ok _ => false

/-- The error message used when creating the pipe for an edge of the
given mode fails (src/cmd/mod.rs:527-550). -/
def pipeMsg : PipeMode → String
  | .Stdout => "Failed to create stdout pipe"
  | .Stderr => "Failed to create stderr pipe"
  | .Both => "Failed to create combined pipe"

/-- Attach the write end (and, for `Both`, a duplicated handle of the
same write end) of pipe `pid` to the streams selected by the edge mode
(src/cmd/mod.rs:525-556). -/
def wireMode (m : PipeMode) (cmd1 : StdCommandModel) (pid : Nat) :
    StdCommandModel :=
  match m with
  | .Stdout => { cmd1 with stdout := .pipeWrite pid }
  | .Stderr => { cmd1 with stderr := .pipeWrite pid }
  | .Both => { cmd1 with stdout := .pipeWrite pid, stderr := .pipeWriteDup pid }

/-- One iteration of the spawn loop of `Pipeline::try_native_pipeline`
(src/cmd/mod.rs:499-583), for the stage `cmdDef` at index `i` with the
remaining connections `rest` after it.

Stage 0's stdin is piped when external input is present, a later stage
takes the pending `prev_reader` as its stdin; the last stage (empty
`rest`) pipes its stdout only when capture was requested, any other stage
creates one fresh OS pipe wired according to the mode of the edge to the
next stage and retains the read end; then the stage is spawned, and for
stage 0 with external input a background thread feeding its stdin is
started. -/
def spawnIter (os : OS) (input : Option String) (capture : Bool)
    (cmdDef : Cmd) (rest : List (Cmd × PipeMode)) (i : Nat) (st : SpawnState) :
    SpawnState × Option Error :=
  let cmd0 := build_std_command_static cmdDef
  let cmd1 :=
    if i = 0 then
      (if input.isSome then { cmd0 with stdin := StdioSpec.piped } else cmd0)
    else
      match st.prevReader with
      | some id => { cmd0 with stdin := StdioSpec.pipeRead id }
      | none => cmd0
  let st1 := if i = 0 then st else { st with prevReader := none }
  match rest with
  | [] =>
    let cmd2 := if capture then { cmd1 with stdout := StdioSpec.piped } else cmd1
    match os.spawnErr i with
    | some e =>
      (st1, some { message := "Failed to spawn command: " ++ cmdDef.program,
                   source := some e })
    | none =>
      let st3 := { st1 with children := st1.children ++ [cmd2] }
      let st4 :=
        { st3 with
          inputThreadAt :=
            if i = 0 ∧ input.isSome ∧ cmd2.stdin = StdioSpec.piped then
              some st3.children.length
            else st3.inputThreadAt }
      (st4, none)
  | (_, nextMode) :: _ =>
    let pid := st1.nextPipeId
    match os.pipeErr pid with
    | some e => (st1, some { message := pipeMsg nextMode, source := some e })
    | none =>
      match nextMode, os.cloneErr pid with
      | .Both, some e =>
        (st1, some { message := "Failed to clone pipe writer", source := some e })
      | _, _ =>
        let cmd2 := wireMode nextMode cmd1 pid
        let st2 := { st1 with prevReader := some pid, nextPipeId := pid + 1 }
        match os.spawnErr i with
        | some e =>
          (st2, some { message := "Failed to spawn command: " ++ cmdDef.program,
                       source := some e })
        | none =>
          let st3 := { st2 with children := st2.children ++ [cmd2] }
          let st4 :=
            { st3 with
              inputThreadAt :=
                if i = 0 ∧ input.isSome ∧ cmd2.stdin = StdioSpec.piped then
                  some st3.children.length
                else st3.inputThreadAt }
          (st4, none)

/-- The spawn loop of `try_native_pipeline` (src/cmd/mod.rs:499-583):
run `spawnIter` for each remaining connection in turn. On a failure the
loop stops and the state reached so far is returned together with the
error; the already-spawned children are merely dropped (`?` early
return), nothing waits on them. -/
def spawnLoop (os : OS) (input : Option String) (capture : Bool) :
    List (Cmd × PipeMode) → Nat → SpawnState → SpawnState × Option Error
  | [], _, st => (st, none)
  | (cmdDef, _) :: rest, i, st =>
    match spawnIter os input capture cmdDef rest i st with
    | (stFail, some e) => (stFail, some e)
    | (st4, none) => spawnLoop os input capture rest (i + 1) st4

/-- Renders `{:?}` of the optional exit code, as the failure message
does. -/
def formatCodeOpt : Option Int → String
  | some c => "Some(" ++ toString c ++ ")"
  | none => "None"

/-- The wait loop of `try_native_pipeline` (src/cmd/mod.rs:599-612), which
is also the body of `PipelineHandle::wait` (src/cmd/pipeline.rs:11-26):
wait on the children in spawn order, returning an error as soon as a wait
fails at the OS level or a collected status is non-successful — children
after that point are never waited on. Also returns how many children were
actually waited (reaped). -/
def waitLoop (os : OS) : List Nat → Except Error Unit × Nat
  | [] => (.ok (), 0)
  | i :: rest =>
    match os.waitRes i with
    | .error e =>
      (.error { message := "Failed to wait for command", source := some e }, 0)
    | .ok status =>
      if status.success then
        let r := waitLoop os rest
        (r.1, r.2 + 1)
      else
        (.error { message := "Command failed with exit code: " ++
                    formatCodeOpt status.code,
                  source := none }, 1)

/-- Reading the captured stdout of the last spawned child when capture
was requested (src/cmd/mod.rs:585-597): the last child's stdout handle
exists exactly when its stdout was configured `piped`. -/
def readCaptured (os : OS) (capture : Bool)
    (children : List StdCommandModel) : Except Error (List UInt8) :=
  if capture then
    match children.getLast? with
    | some last =>
      if last.stdout = StdioSpec.piped then
        match os.readErr with
        | some e => .error { message := "Failed to read stdout", source := some e }
        | none => .ok os.readBytes
      else .ok []
    | none => .ok []
  else .ok []

/-- `Pipeline::try_native_pipeline` (src/cmd/mod.rs:487-615): spawn every
stage left to right; when requested, read the captured stdout of the last
stage on the calling thread; finally wait on the children in spawn
order. -/
def Pipeline.try_native_pipeline (p : Pipeline) (os : OS) (capture : Bool) :
    RunResult :=
  let run := spawnLoop os p.input capture p.connections 0 initialSpawnState
  let st := run.1
  match run.2 with
  | some e =>
    { result := .error e, children := st.children, waitedCount := 0,
      inputThreadAt := st.inputThreadAt, syncWrite := false,
      pipesCreated := st.nextPipeId }
  | none =>
    match readCaptured os capture st.children with
    | .error e =>
      { result := .error e, children := st.children, waitedCount := 0,
        inputThreadAt := st.inputThreadAt, syncWrite := false,
        pipesCreated := st.nextPipeId }
    | .ok bytes =>
      let w := waitLoop os (List.range st.children.length)
      match w.1 with
      | .error e =>
        { result := .error e, children := st.children, waitedCount := w.2,
          inputThreadAt := st.inputThreadAt, syncWrite := false,
          pipesCreated := st.nextPipeId }
      | .ok _ =>
        { result := .ok bytes, children := st.children, waitedCount := w.2,
          inputThreadAt := st.inputThreadAt, syncWrite := false,
          pipesCreated := st.nextPipeId }

/-- `Cmd::execute_internal` (src/cmd/mod.rs:260-317): build the command,
spawn it, write any configured input *synchronously on the calling
thread*, then wait while collecting output; a non-success status becomes
an error. -/
def Cmd.execute_internal (c : Cmd) (os : OS) (captureOutput pipeStdin : Bool) :
    RunResult :=
  let cmd0 := build_std_command_static c
  let cmd1 := if captureOutput then { cmd0 with stdout := StdioSpec.piped } else cmd0
  let cmd2 :=
    if pipeStdin || c.input.isSome then { cmd1 with stdin := StdioSpec.piped }
    else cmd1
  match os.spawnErr 0 with
  | some e =>
    { result := .error { message := "Failed to spawn command: " ++ c.program,
                         source := some e },
      children := [], waitedCount := 0, inputThreadAt := none,
      syncWrite := false, pipesCreated := 0 }
  | none =>
    let doneWrite := c.input.isSome && cmd2.stdin == StdioSpec.piped
    let writeFail : Option Error :=
      if doneWrite then
        match os.writeErr with
        | some e => some { message := "Failed to write to stdin", source := some e }
        | none => none
      else none
    match writeFail with
    | some e =>
      { result := .error e, children := [cmd2], waitedCount := 0,
        inputThreadAt := none, syncWrite := doneWrite, pipesCreated := 0 }
    | none =>
      match os.waitRes 0 with
      | .error e =>
        { result := .error { message := "Failed to wait for command",
                             source := some e },
          children := [cmd2], waitedCount := 0, inputThreadAt := none,
          syncWrite := doneWrite, pipesCreated := 0 }
      | .ok status =>
        if status.success then
          { result := .ok (if captureOutput then os.readBytes else []),
            children := [cmd2], waitedCount := 1, inputThreadAt := none,
            syncWrite := doneWrite, pipesCreated := 0 }
        else
          { result := .error { message := "Command failed with exit code: " ++
                                 formatCodeOpt status.code,
                               source := none },
            children := [cmd2], waitedCount := 1, inputThreadAt := none,
            syncWrite := doneWrite, pipesCreated := 0 }

/-- `Pipeline::execute_internal` (src/cmd/mod.rs:448-474): an empty
pipeline returns no output; a single-command pipeline is delegated to
plain `Cmd` execution — with the pipeline's input moved onto the command,
so the input is written synchronously — and only two or more stages take
the native pipeline path. -/
def Pipeline.execute_internal (p : Pipeline) (os : OS) (capture : Bool) :
    RunResult :=
  match p.connections with
  | [] =>
    { result := .ok [], children := [], waitedCount := 0, inputThreadAt := none,
      syncWrite := false, pipesCreated := 0 }
  | (c, _) :: rest =>
    if rest.isEmpty then
      let c1 :=
        match p.input with
        | some s => { c with input := some s }
        | none => c
      Cmd.execute_internal c1 os capture false
    else
      p.try_native_pipeline os capture

/-- One child process as seen by `PipelineHandle`
(src/cmd/pipeline.rs): whether its stdout handle is still present and
what reading it to the end would return, and what `wait` would return. -/
structure PChild where
  stdoutRead : Option (Except String (List UInt8))
  waitRes : Except String ExitStatus

/-- `PipelineHandle` (src/cmd/pipeline.rs): the spawned children in spawn
order. -/
structure PipelineHandle where
  children : List PChild

/-- The wait loop inside `PipelineHandle::output_bytes`
(src/cmd/pipeline.rs:49-54): wait on every child, propagating only
OS-level wait failures; the collected exit statuses are discarded. -/
def waitAllDiscard : List PChild → Except Error Unit
  | [] => .ok ()
  | c :: rest =>
    match c.waitRes with
    | .error e =>
      .error { message := "Failed to wait for child process", source := some e }
    | .ok _ => waitAllDiscard rest

/-- `PipelineHandle::output_bytes` (src/cmd/pipeline.rs:37-64): read the
last child's captured stdout to the end, then wait on all children
(discarding their exit statuses), and return the bytes. -/
def PipelineHandle.output_bytes (h : PipelineHandle) :
    Except Error (List UInt8) :=
  match h.children.getLast? with
  | some last =>
    match last.stdoutRead with
    | some readRes =>
      match readRes with
      | .error e => .error { message := "Failed to read stdout", source := some e }
      | .ok bytes =>
        match waitAllDiscard h.children with
        | .error e => .error e
        | .ok _ => .ok bytes
    | none => .error { message := "No stdout available to read from", source := none }
  | none => .error { message := "No stdout available to read from", source := none }

/-- The stdio configuration record of the single stage handled by a
successful `spawnIter` call (proof device mirroring its success path). -/
def mkHead (input : Option String) (capture : Bool) (cmdDef : Cmd)
    (rest : List (Cmd × PipeMode)) (i : Nat) (prevR : Option Nat) (pid : Nat) :
    StdCommandModel :=
  let cmd0 := build_std_command_static cmdDef
  let cmd1 :=
    if i = 0 then
      (if input.isSome then { cmd0 with stdin := StdioSpec.piped } else cmd0)
    else
      match prevR with
      | some id => { cmd0 with stdin := StdioSpec.pipeRead id }
      | none => cmd0
  match rest with
  | [] => if capture then { cmd1 with stdout := StdioSpec.piped } else cmd1
  | (_, m) :: _ => wireMode m cmd1 pid

/-- The records a fully successful run of `spawnLoop` appends to
`children` when started at stage index `i` with pending reader `prevR`
and next fresh pipe id `pid` (proof device). -/
def mkRecords (input : Option String) (capture : Bool) :
    List (Cmd × PipeMode) → Nat → Option Nat → Nat → List StdCommandModel
  | [], _, _, _ => []
  | (c, _) :: rest, i, prevR, pid =>
    mkHead input capture c rest i prevR pid ::
      mkRecords input capture rest (i + 1) (some pid) (pid + 1)

/-- The stdin configuration of the stage at offset `j` of a successful
spawn-loop run started at index `i` with pending reader `prevR` and next
pipe id `pid`. -/
def stdinSpecAt (input : Option String) (i : Nat) (prevR : Option Nat)
    (pid : Nat) : Nat → StdioSpec
  | 0 =>
    if i = 0 then (if input.isSome then .piped else .inherit)
    else
      match prevR with
      | some id => .pipeRead id
      | none => .inherit
  | j + 1 => .pipeRead (pid + j)

/-- The stdout/stderr configuration of the stage at offset `j`, as a
function of the mode of the edge leaving it. -/
def outSpecAt (capture : Bool) (conns : List (Cmd × PipeMode)) (pid j : Nat) :
    StdioSpec × StdioSpec :=
  match conns[j + 1]? with
  | none => (if capture then .piped else .inherit, .inherit)
  | some (_, m) =>
    match m with
    | .Stdout => (.pipeWrite (pid + j), .inherit)
    | .Stderr => (.inherit, .pipeWrite (pid + j))
    | .Both => (.pipeWrite (pid + j), .pipeWriteDup (pid + j))

/-- An oracle on which every OS call succeeds and every stage exits 0. -/
def okOS : OS :=
  { spawnErr := fun _ => none, pipeErr := fun _ => none, cloneErr := fun _ => none,
    waitRes := fun _ => .ok (.exited 0), writeErr := none, readErr := none,
    readBytes := [] }

/-- A two-stage pipeline, `false | cat`. -/
def exTwoStage : Pipeline := (Cmd.new "false").pipe (Cmd.new "cat")

/-- Oracle on which stage 0 exits with code 1 and every other stage with
code 0. -/
def osStage0Fails : OS :=
  { okOS with waitRes := fun j => if j = 0 then .ok (.exited 1) else .ok (.exited 0) }

/-- Oracle on which spawning stage 1 fails with an OS error and all other
calls succeed. -/
def osSpawn1Fails : OS :=
  { okOS with
    spawnErr := fun j => if j = 1 then some "No such file or directory (os error 2)" else none }

/-- Oracle on which every spawn fails with an OS error. -/
def osSpawnAllFail : OS :=
  { okOS with spawnErr := fun _ => some "No such file or directory (os error 2)" }

/-- A single-stage pipeline with external input attached. -/
def exSingleWithInput : Pipeline :=
  { connections := [(Cmd.new "cat", PipeMode.Stdout)], input := some "hello",
    quiet := false }

/-- A two-stage pipeline with external input attached. -/
def exTwoStageWithInput : Pipeline :=
  { (Cmd.new "tr").pipe (Cmd.new "wc") with input := some "hello" }

/-- A three-stage pipeline whose two edges carry different modes
(`a` --Stderr--> `b` --Both--> `c`). -/
def exMixedModes : Pipeline :=
  ((Cmd.new "a").pipe_stderr (Cmd.new "b")).pipe_both (Cmd.new "c")

/-- A handle on two children whose first stage exited 1 and whose last
stage exited 0, with stdout captured on the last child. -/
def exHandle : PipelineHandle :=
  { children :=
      [ { stdoutRead := none, waitRes := .ok (.exited 1) },
        { stdoutRead := some (.ok [104, 105]), waitRes := .ok (.exited 0) } ] }

/- ------------------------------------------------------------------ -/
/- Theorems.                                                           -/
/- ------------------------------------------------------------------ -/

theorem successScan_iff (l : List ExitStatus) :
    successScan l = true ↔ ∀ st ∈ l, st = ExitStatus.exited 0 := by
  induction l with
  | nil => simp [successScan]
  | cons st rest ih =>
    cases st with
    | exited c =>
      by_cases hc : c = 0
      · subst hc
        simpa [successScan, ExitStatus.success] using ih
      · simp [successScan, ExitStatus.success, hc]
    | signaled sg =>
      simp [successScan, ExitStatus.success]

/-- Claim C5: `Status.success()` returns true if and only if every stage
exited with exit code 0; in particular it is false whenever any stage was
terminated by a signal (a `signaled` value is never `exited 0`). -/
theorem status_success_iff_all_exit_zero (s : Status) :
    s.success = true ↔ ∀ st ∈ s.stages, st = ExitStatus.exited 0 :=
  successScan_iff s.stages

/-- Claim C9: `Status.code()` yields, in spawn order, exactly the exit
codes of the stages that exited with a code (it is the order-preserving
`filterMap` of `ExitStatus.code`), a stage that exited contributes its
code at its position, and a signal-terminated stage contributes no
element. -/
theorem status_code_lists_exit_codes_in_order (s : Status) :
    s.code = s.stages.filterMap ExitStatus.code ∧
    (∀ c rest, Status.code ⟨ExitStatus.exited c :: rest⟩ = c :: Status.code ⟨rest⟩) ∧
    (∀ sg rest, Status.code ⟨ExitStatus.signaled sg :: rest⟩ = Status.code ⟨rest⟩) := by
  refine ⟨?_, ?_, ?_⟩
  · show s.stages.flatMap (fun st => st.code.toList) = s.stages.filterMap ExitStatus.code
    induction s.stages with
    | nil => rfl
    | cons st rest ih =>
      cases st <;> simp [ExitStatus.code] <;> exact ih
  · intro c rest
    simp [Status.code, ExitStatus.code]
  · intro sg rest
    simp [Status.code, ExitStatus.code]

/-- Claim C7: `.pipe` appends the next command with edge mode `Stdout`,
`.pipe_stderr` with `Stderr`, `.pipe_both` with `Both`; the previously
recorded stages and edge modes (and the recorded input) are left
unchanged; and the two-stage pipelines produced by the corresponding
`Cmd` methods carry the same edge modes. -/
theorem pipe_builders_append_with_mode (p : Pipeline) (c c1 c2 : Cmd) :
    (p.pipe c).connections = p.connections ++ [(c, PipeMode.Stdout)] ∧
    (p.pipe_stderr c).connections = p.connections ++ [(c, PipeMode.Stderr)] ∧
    (p.pipe_both c).connections = p.connections ++ [(c, PipeMode.Both)] ∧
    (p.pipe c).connections.take p.connections.length = p.connections ∧
    (p.pipe_stderr c).connections.take p.connections.length = p.connections ∧
    (p.pipe_both c).connections.take p.connections.length = p.connections ∧
    (p.pipe c).input = p.input ∧
    (p.pipe_stderr c).input = p.input ∧
    (p.pipe_both c).input = p.input ∧
    (c1.pipe c2).connections = [(c1, PipeMode.Stdout), (c2, PipeMode.Stdout)] ∧
    (c1.pipe_stderr c2).connections = [(c1, PipeMode.Stdout), (c2, PipeMode.Stderr)] ∧
    (c1.pipe_both c2).connections = [(c1, PipeMode.Stdout), (c2, PipeMode.Both)] := by
  refine ⟨rfl, rfl, rfl, ?_, ?_, ?_, rfl, rfl, rfl, rfl, rfl, rfl⟩ <;>
    simp [Pipeline.pipe, Pipeline.pipe_stderr, Pipeline.pipe_both,
      List.take_left]

theorem find?_filter_of_imp {α : Type} (p q : α → Bool) (l : List α)
    (h : ∀ x, p x = true → q x = true) : (l.filter q).find? p = l.find? p := by
  induction l with
  | nil => rfl
  | cons x xs ih =>
    by_cases hq : q x = true
    · rw [List.filter_cons_of_pos hq]
      by_cases hp : p x = true
      · simp [List.find?_cons, hp]
      · simp only [List.find?_cons]
        rw [Bool.not_eq_true] at hp
        simp [hp, ih]
    · have hp : p x = false := by
        cases hpx : p x
        · rfl
        · exact absurd (h x hpx) hq
      rw [List.filter_cons_of_neg (by simp [Bool.not_eq_true] at hq ⊢; exact hq)]
      simp [List.find?_cons, hp, ih]

theorem envLookup_envInsert_self (m : List (String × String)) (k v : String) :
    envLookup (envInsert m k v) k = some v := by
  unfold envLookup envInsert
  rw [List.find?_append]
  have h : (m.filter (fun p => !(p.1 == k))).find? (fun p => p.1 == k) = none := by
    rw [List.find?_eq_none]
    intro x hx
    have hm := List.of_mem_filter hx
    simp only [Bool.not_eq_true'] at hm
    simp [hm]
  rw [h]
  simp

theorem envLookup_envInsert_ne (m : List (String × String)) (k k' v : String)
    (h : (k' == k) = false) :
    envLookup (envInsert m k' v) k = envLookup m k := by
  unfold envLookup envInsert
  rw [List.find?_append]
  rw [find?_filter_of_imp (fun p => p.1 == k) (fun p => !(p.1 == k')) m ?imp]
  case imp =>
    intro x hx
    have hx' : x.1 = k := by simpa using hx
    subst hx'
    simpa using fun hcontra => by simp [hcontra] at h
  cases hm : m.find? (fun p => p.1 == k) with
  | none => simp [hm, List.find?_cons, h]
  | some x => simp [hm]

theorem envLookup_buildEnvMap (envs : List (String × String)) (k : String) :
    envLookup (buildEnvMap envs) k =
      (envs.reverse.find? (fun p => p.1 == k)).map (fun p => p.2) := by
  induction envs using List.reverseRecOn with
  | nil => rfl
  | append_singleton l p ih =>
    have hb : buildEnvMap (l ++ [p]) = envInsert (buildEnvMap l) p.1 p.2 := by
      unfold buildEnvMap
      rw [List.foldl_append]
      rfl
    rw [hb, List.reverse_append]
    by_cases hk : (p.1 == k) = true
    · have hk' : p.1 = k := by simpa using hk
      subst hk'
      rw [envLookup_envInsert_self]
      simp [List.find?_cons, hk]
    · have hk' : (p.1 == k) = false := by
        cases hpk : (p.1 == k)
        · rfl
        · exact absurd hpk hk
      rw [envLookup_envInsert_ne _ _ _ _ hk', ih]
      simp [List.find?_cons, hk']

theorem envLookup_buildEnvMap_append_self (envs : List (String × String))
    (k v : String) :
    envLookup (buildEnvMap (envs ++ [(k, v)])) k = some v := by
  rw [envLookup_buildEnvMap, List.reverse_append]
  simp [List.find?_cons]

theorem envPresent_append (envs : List (String × String)) (k : String)
    (q : String × String)
    (h : (envLookup (buildEnvMap envs) k).isSome = true) :
    (envLookup (buildEnvMap (envs ++ [q])) k).isSome = true := by
  rw [envLookup_buildEnvMap] at h ⊢
  rw [List.reverse_append]
  by_cases hq : (q.1 == k) = true
  · simp [List.find?_cons, hq]
  · have hq' : (q.1 == k) = false := by
      cases hqk : (q.1 == k)
      · rfl
      · exact absurd hqk hq
    simpa [List.find?_cons, hq'] using h

theorem envs_foldl_arg (l : List String) (c : Cmd) :
    (l.foldl Cmd.arg c).envs = c.envs := by
  induction l generalizing c with
  | nil => rfl
  | cons a as ih => simpa [Cmd.arg] using ih (c.arg a)

theorem envKey_present_after_op (c : Cmd) (k : String) (op : CmdOp)
    (h : (envLookup (buildEnvMap c.envs) k).isSome = true) :
    (envLookup (buildEnvMap (CmdOp.apply c op).envs) k).isSome = true := by
  cases op with
  | arg a => simpa [CmdOp.apply, Cmd.arg] using h
  | args l => simpa [CmdOp.apply, envs_foldl_arg] using h
  | env k' v =>
    simpa [CmdOp.apply, Cmd.env] using envPresent_append c.envs k (k', v) h
  | current_dir d => simpa [CmdOp.apply, Cmd.current_dir] using h
  | input s => simpa [CmdOp.apply, Cmd.setInput] using h
  | quiet => simpa [CmdOp.apply, Cmd.setQuiet] using h

theorem envKey_present_after_ops (c : Cmd) (k : String) (ops : List CmdOp)
    (h : (envLookup (buildEnvMap c.envs) k).isSome = true) :
    (envLookup (buildEnvMap (c.applyOps ops).envs) k).isSome = true := by
  induction ops generalizing c with
  | nil => exact h
  | cons op rest ih =>
    have h1 := envKey_present_after_op c k op h
    simpa [Cmd.applyOps] using ih (CmdOp.apply c op) h1

/-- Claim C6 (amended): a `Cmd`'s environment overrides behave as a
key→value map with last-write-wins semantics — setting the same key twice
makes the later value the one recorded in the environment map of the
`std::process::Command` built for it — but the builder offers no
"remove key" and no "clear all" operation: overrides are strictly
additive, so after any sequence of builder operations a key once set is
still present in that map. -/
theorem env_overrides_last_write_wins_add_only (c : Cmd) (k v v1 v2 : String)
    (ops : List CmdOp) :
    envLookup (build_std_command_static ((c.env k v1).env k v2)).env k = some v2 ∧
    envLookup (build_std_command_static (c.env k v)).env k = some v ∧
    (envLookup (build_std_command_static ((c.env k v).applyOps ops)).env k).isSome
      = true := by
  refine ⟨?_, ?_, ?_⟩
  · show envLookup (buildEnvMap ((c.env k v1).env k v2).envs) k = some v2
    simp only [Cmd.env]
    exact envLookup_buildEnvMap_append_self _ k v2
  · show envLookup (buildEnvMap (c.env k v).envs) k = some v
    simp only [Cmd.env]
    exact envLookup_buildEnvMap_append_self _ k v
  · show (envLookup (buildEnvMap ((c.env k v).applyOps ops).envs) k).isSome = true
    refine envKey_present_after_ops _ _ _ ?_
    simp only [Cmd.env]
    rw [envLookup_buildEnvMap_append_self]
    rfl

/-- Claim C6 (counterexample to the "remove key"/"clear all" part): for
the concrete spec `Cmd.new "prog"` with override `K=V`, no builder
operation whatsoever produces a spec in which the override for `K` is
absent from the environment map passed to the spawned process — hence the
builder offers neither a "remove key" nor a "clear all" operation. -/
theorem no_builder_op_removes_env_override :
    ¬ ∃ op : CmdOp,
      envLookup (build_std_command_static
        (CmdOp.apply ((Cmd.new "prog").env "K" "V") op)).env "K" = none := by
  rintro ⟨op, hop⟩
  have h : (envLookup (build_std_command_static
      (CmdOp.apply ((Cmd.new "prog").env "K" "V") op)).env "K").isSome = true := by
    show (envLookup (buildEnvMap
      (CmdOp.apply ((Cmd.new "prog").env "K" "V") op).envs) "K").isSome = true
    exact envKey_present_after_op _ _ op (by decide)
  rw [hop] at h
  simp at h

theorem spawnIter_ok (os : OS) (input : Option String) (capture : Bool)
    (cmdDef : Cmd) (rest : List (Cmd × PipeMode)) (i : Nat) (st : SpawnState)
    (hspawn : os.spawnErr i = none)
    (hpipe : ∀ id, os.pipeErr id = none)
    (hclone : ∀ id, os.cloneErr id = none) :
    (spawnIter os input capture cmdDef rest i st).2 = none ∧
    (spawnIter os input capture cmdDef rest i st).1.children =
      st.children ++ [mkHead input capture cmdDef rest i st.prevReader st.nextPipeId] ∧
    (spawnIter os input capture cmdDef rest i st).1.nextPipeId =
      (match rest with | [] => st.nextPipeId | _ :: _ => st.nextPipeId + 1) ∧
    (spawnIter os input capture cmdDef rest i st).1.prevReader =
      (match rest with
       | [] => (if i = 0 then st.prevReader else none)
       | _ :: _ => some st.nextPipeId) ∧
    (spawnIter os input capture cmdDef rest i st).1.inputThreadAt =
      (if i = 0 ∧ input.isSome = true then some (st.children.length + 1)
       else st.inputThreadAt) := by
  by_cases hi : i = 0
  · subst hi
    cases rest with
    | nil =>
      cases hin : input.isSome <;> cases capture <;>
        simp [spawnIter, mkHead, wireMode, build_std_command_static, hspawn,
          hpipe, hclone, hin]
    | cons hd2 rest2 =>
      obtain ⟨c2, m2⟩ := hd2
      cases hin : input.isSome <;> rcases m2 with _ | _ | _ <;>
        simp [spawnIter, mkHead, wireMode, build_std_command_static, hspawn,
          hpipe, hclone, hin]
  · cases rest with
    | nil =>
      cases capture <;>
        simp [spawnIter, mkHead, wireMode, build_std_command_static, hspawn,
          hpipe, hclone, hi]
    | cons hd2 rest2 =>
      obtain ⟨c2, m2⟩ := hd2
      rcases m2 with _ | _ | _ <;>
        simp [spawnIter, mkHead, wireMode, build_std_command_static, hspawn,
          hpipe, hclone, hi]

theorem spawnIter_spawn_fail (os : OS) (input : Option String) (capture : Bool)
    (cmdDef : Cmd) (rest : List (Cmd × PipeMode)) (i : Nat) (st : SpawnState)
    (e : String)
    (hspawn : os.spawnErr i = some e)
    (hpipe : ∀ id, os.pipeErr id = none)
    (hclone : ∀ id, os.cloneErr id = none) :
    (spawnIter os input capture cmdDef rest i st).2 =
      some { message := "Failed to spawn command: " ++ cmdDef.program,
             source := some e } ∧
    (spawnIter os input capture cmdDef rest i st).1.children = st.children := by
  by_cases hi : i = 0
  · subst hi
    cases rest with
    | nil =>
      cases hin : input.isSome <;> cases capture <;>
        simp [spawnIter, mkHead, wireMode, build_std_command_static, hspawn,
          hpipe, hclone, hin]
    | cons hd2 rest2 =>
      obtain ⟨c2, m2⟩ := hd2
      cases hin : input.isSome <;> rcases m2 with _ | _ | _ <;>
        simp [spawnIter, mkHead, wireMode, build_std_command_static, hspawn,
          hpipe, hclone, hin]
  · cases rest with
    | nil =>
      cases capture <;>
        simp [spawnIter, mkHead, wireMode, build_std_command_static, hspawn,
          hpipe, hclone, hi]
    | cons hd2 rest2 =>
      obtain ⟨c2, m2⟩ := hd2
      rcases m2 with _ | _ | _ <;>
        simp [spawnIter, mkHead, wireMode, build_std_command_static, hspawn,
          hpipe, hclone, hi]

theorem spawnLoop_ok (os : OS) (input : Option String) (capture : Bool)
    (hspawn : ∀ j, os.spawnErr j = none)
    (hpipe : ∀ id, os.pipeErr id = none)
    (hclone : ∀ id, os.cloneErr id = none) :
    ∀ (conns : List (Cmd × PipeMode)) (i : Nat) (st : SpawnState),
      (spawnLoop os input capture conns i st).2 = none ∧
      (spawnLoop os input capture conns i st).1.children =
        st.children ++ mkRecords input capture conns i st.prevReader st.nextPipeId ∧
      (spawnLoop os input capture conns i st).1.nextPipeId =
        st.nextPipeId + (conns.length - 1) ∧
      (spawnLoop os input capture conns i st).1.inputThreadAt =
        (if i = 0 ∧ input.isSome = true ∧ conns ≠ [] then
          some (st.children.length + 1)
         else st.inputThreadAt) := by
  intro conns
  induction conns with
  | nil => intro i st; simp [spawnLoop, mkRecords]
  | cons hd rest ih =>
    intro i st
    obtain ⟨cmdDef, mode⟩ := hd
    obtain ⟨hsi1, hsi2, hsi3, hsi4, hsi5⟩ :=
      spawnIter_ok os input capture cmdDef rest i st (hspawn i) hpipe hclone
    rcases hIter : spawnIter os input capture cmdDef rest i st with ⟨st4, err⟩
    rw [hIter] at hsi1 hsi2 hsi3 hsi4 hsi5
    simp only at hsi1 hsi2 hsi3 hsi4 hsi5
    subst hsi1
    have hunfold :
        spawnLoop os input capture ((cmdDef, mode) :: rest) i st =
          spawnLoop os input capture rest (i + 1) st4 := by
      simp [spawnLoop, hIter]
    rw [hunfold]
    obtain ⟨ih1, ih2, ih3, ih4⟩ := ih (i + 1) st4
    refine ⟨ih1, ?_, ?_, ?_⟩
    · rw [ih2, hsi2]
      cases rest with
      | nil => simp [mkRecords]
      | cons hd2 rest2 =>
        simp only at hsi3 hsi4
        rw [hsi3, hsi4]
        simp [mkRecords]
    · rw [ih3, hsi3]
      cases rest with
      | nil => simp
      | cons hd2 rest2 => simp; omega
    · rw [ih4]
      have hne : ¬(i + 1 = 0 ∧ input.isSome = true ∧ rest ≠ []) := by
        intro h
        exact Nat.succ_ne_zero i h.1
      rw [if_neg hne, hsi5]
      by_cases hcond : i = 0 ∧ input.isSome = true
      · have h2 : i = 0 ∧ input.isSome = true ∧ ((cmdDef, mode) :: rest) ≠ [] :=
          ⟨hcond.1, hcond.2, by simp⟩
        rw [if_pos hcond, if_pos h2]
      · have h2 : ¬(i = 0 ∧ input.isSome = true ∧ ((cmdDef, mode) :: rest) ≠ []) := by
          intro h
          exact hcond ⟨h.1, h.2.1⟩
        rw [if_neg hcond, if_neg h2]

theorem spawnLoop_fail (os : OS) (input : Option String) (capture : Bool)
    (e : String)
    (hpipe : ∀ id, os.pipeErr id = none)
    (hclone : ∀ id, os.cloneErr id = none) :
    ∀ (conns : List (Cmd × PipeMode)) (i : Nat) (st : SpawnState)
      (k : Nat) (c : Cmd) (m : PipeMode),
      conns[k]? = some (c, m) →
      (∀ j, j < i + k → os.spawnErr j = none) →
      os.spawnErr (i + k) = some e →
      (spawnLoop os input capture conns i st).2 =
        some { message := "Failed to spawn command: " ++ c.program,
               source := some e } ∧
      (spawnLoop os input capture conns i st).1.children.length =
        st.children.length + k := by
  intro conns
  induction conns with
  | nil =>
    intro i st k c m hget
    simp at hget
  | cons hd rest ih =>
    intro i st k c m hget hbefore hfail
    obtain ⟨cmdDef, mode⟩ := hd
    cases k with
    | zero =>
      have hget0 : (cmdDef, mode) = (c, m) := by simpa using hget
      have hc : cmdDef = c := congrArg Prod.fst hget0
      subst hc
      have hsp : os.spawnErr i = some e := by simpa using hfail
      obtain ⟨hf1, hf2⟩ :=
        spawnIter_spawn_fail os input capture cmdDef rest i st e hsp hpipe hclone
      rcases hIter : spawnIter os input capture cmdDef rest i st with ⟨stF, err⟩
      rw [hIter] at hf1 hf2
      simp only at hf1 hf2
      subst hf1
      have hunfold :
          spawnLoop os input capture ((cmdDef, mode) :: rest) i st =
            (stF, some { message := "Failed to spawn command: " ++ cmdDef.program,
                         source := some e }) := by
        simp [spawnLoop, hIter]
      rw [hunfold]
      exact ⟨rfl, by simp [hf2]⟩
    | succ k2 =>
      have hsp : os.spawnErr i = none := hbefore i (by omega)
      obtain ⟨hsi1, hsi2, _, _, _⟩ :=
        spawnIter_ok os input capture cmdDef rest i st hsp hpipe hclone
      rcases hIter : spawnIter os input capture cmdDef rest i st with ⟨st4, err⟩
      rw [hIter] at hsi1 hsi2
      simp only at hsi1 hsi2
      subst hsi1
      have hunfold :
          spawnLoop os input capture ((cmdDef, mode) :: rest) i st =
            spawnLoop os input capture rest (i + 1) st4 := by
        simp [spawnLoop, hIter]
      rw [hunfold]
      have hget2 : rest[k2]? = some (c, m) := by simpa using hget
      have hb2 : ∀ j, j < (i + 1) + k2 → os.spawnErr j = none := by
        intro j hj
        exact hbefore j (by omega)
      have hf2 : os.spawnErr ((i + 1) + k2) = some e := by
        have harith : (i + 1) + k2 = i + (k2 + 1) := by omega
        rw [harith]
        exact hfail
      obtain ⟨hr1, hr2⟩ := ih (i + 1) st4 k2 c m hget2 hb2 hf2
      refine ⟨hr1, ?_⟩
      rw [hr2, hsi2]
      simp
      omega

theorem mkRecords_length (input : Option String) (capture : Bool) :
    ∀ (conns : List (Cmd × PipeMode)) (i : Nat) (prevR : Option Nat) (pid : Nat),
      (mkRecords input capture conns i prevR pid).length = conns.length := by
  intro conns
  induction conns with
  | nil => intro i prevR pid; rfl
  | cons hd rest ih =>
    intro i prevR pid
    obtain ⟨c, m⟩ := hd
    simp [mkRecords, ih]

theorem stdinSpecAt_shift (input : Option String) (i pid : Nat)
    (prevR : Option Nat) (j : Nat) :
    stdinSpecAt input (i + 1) (some pid) (pid + 1) j =
      stdinSpecAt input i prevR pid (j + 1) := by
  cases j with
  | zero => simp [stdinSpecAt]
  | succ t =>
    show StdioSpec.pipeRead (pid + 1 + t) = StdioSpec.pipeRead (pid + (t + 1))
    congr 1
    omega

theorem outSpecAt_shift (capture : Bool) (hd : Cmd × PipeMode)
    (rest : List (Cmd × PipeMode)) (pid j : Nat) :
    outSpecAt capture rest (pid + 1) j = outSpecAt capture (hd :: rest) pid (j + 1) := by
  unfold outSpecAt
  have hidx : (hd :: rest)[j + 1 + 1]? = rest[j + 1]? := by simp
  rw [hidx]
  have harith : pid + 1 + j = pid + (j + 1) := by omega
  rw [harith]

theorem mkRecords_getElem? (input : Option String) (capture : Bool) :
    ∀ (conns : List (Cmd × PipeMode)) (i : Nat) (prevR : Option Nat) (pid : Nat)
      (j : Nat) (c : Cmd) (m : PipeMode),
      conns[j]? = some (c, m) →
      (mkRecords input capture conns i prevR pid)[j]? =
        some { build_std_command_static c with
               stdin := stdinSpecAt input i prevR pid j,
               stdout := (outSpecAt capture conns pid j).1,
               stderr := (outSpecAt capture conns pid j).2 } := by
  intro conns
  induction conns with
  | nil =>
    intro i prevR pid j c m hget
    simp at hget
  | cons hd rest ih =>
    intro i prevR pid j c m hget
    obtain ⟨c0, m0⟩ := hd
    cases j with
    | zero =>
      have hget0 : (c0, m0) = (c, m) := by simpa using hget
      have hc : c0 = c := congrArg Prod.fst hget0
      subst hc
      simp only [mkRecords, List.getElem?_cons_zero, Option.some.injEq]
      cases rest with
      | nil =>
        cases capture <;>
          cases hin : input.isSome <;>
            by_cases hi : i = 0 <;>
              rcases prevR with _ | pr <;>
                simp [mkHead, stdinSpecAt, outSpecAt, build_std_command_static,
                  hin, hi]
      | cons hd2 rest2 =>
        obtain ⟨c2, m2⟩ := hd2
        rcases m2 with _ | _ | _ <;>
          cases hin : input.isSome <;>
            by_cases hi : i = 0 <;>
              rcases prevR with _ | pr <;>
                simp [mkHead, wireMode, stdinSpecAt, outSpecAt,
                  build_std_command_static, hin, hi]
    | succ j2 =>
      have hget2 : rest[j2]? = some (c, m) := by simpa using hget
      have hmk :
          (mkRecords input capture ((c0, m0) :: rest) i prevR pid)[j2 + 1]? =
            (mkRecords input capture rest (i + 1) (some pid) (pid + 1))[j2]? := by
        simp [mkRecords]
      rw [hmk, ih (i + 1) (some pid) (pid + 1) j2 c m hget2]
      rw [stdinSpecAt_shift input i pid prevR j2]
      rw [outSpecAt_shift capture (c0, m0) rest pid j2]

theorem readCaptured_ok (os : OS) (capture : Bool)
    (children : List StdCommandModel) (hread : os.readErr = none) :
    ∃ bs, readCaptured os capture children = Except.ok bs := by
  unfold readCaptured
  cases capture
  · exact ⟨[], rfl⟩
  · simp only
    cases children.getLast? with
    | none => exact ⟨[], rfl⟩
    | some last =>
      by_cases hp : last.stdout = StdioSpec.piped
      · simp [hp, hread]
      · simp [hp]

theorem try_native_pipeline_fields (p : Pipeline) (os : OS) (capture : Bool) :
    (p.try_native_pipeline os capture).children =
      (spawnLoop os p.input capture p.connections 0 initialSpawnState).1.children ∧
    (p.try_native_pipeline os capture).pipesCreated =
      (spawnLoop os p.input capture p.connections 0 initialSpawnState).1.nextPipeId ∧
    (p.try_native_pipeline os capture).inputThreadAt =
      (spawnLoop os p.input capture p.connections 0 initialSpawnState).1.inputThreadAt ∧
    (p.try_native_pipeline os capture).syncWrite = false := by
  unfold Pipeline.try_native_pipeline
  rcases hrun : spawnLoop os p.input capture p.connections 0 initialSpawnState
    with ⟨st, err⟩
  simp only
  cases err with
  | some e => simp
  | none =>
    simp only
    cases hrc : readCaptured os capture st.children with
    | error e => simp
    | ok bytes =>
      simp only
      cases hw : (waitLoop os (List.range st.children.length)).1 with
      | error e => simp [hw]
      | ok u => simp [hw]

theorem try_native_fail_fields (p : Pipeline) (os : OS) (capture : Bool)
    (st : SpawnState) (e : Error)
    (hrun : spawnLoop os p.input capture p.connections 0 initialSpawnState =
      (st, some e)) :
    p.try_native_pipeline os capture =
      { result := .error e, children := st.children, waitedCount := 0,
        inputThreadAt := st.inputThreadAt, syncWrite := false,
        pipesCreated := st.nextPipeId } := by
  unfold Pipeline.try_native_pipeline
  rw [hrun]

theorem waitLoop_all_ok (os : OS) :
    ∀ l : List Nat,
      (∀ j ∈ l, ∃ s, os.waitRes j = Except.ok s ∧ s.success = true) →
      waitLoop os l = (Except.ok (), l.length) := by
  intro l
  induction l with
  | nil => intro h; rfl
  | cons x xs ih =>
    intro h
    obtain ⟨s, hs, hsucc⟩ := h x (by simp)
    have hxs := ih (fun j hj => h j (by simp [hj]))
    simp [waitLoop, hs, hsucc, hxs]

theorem waitLoop_first_fail (os : OS) (k : Nat) (sk : ExitStatus)
    (hk : os.waitRes k = Except.ok sk) (hf : sk.success = false) :
    ∀ l1 l2 : List Nat,
      (∀ j ∈ l1, ∃ s, os.waitRes j = Except.ok s ∧ s.success = true) →
      waitLoop os (l1 ++ k :: l2) =
        (Except.error { message := "Command failed with exit code: " ++
            formatCodeOpt sk.code, source := none }, l1.length + 1) := by
  intro l1
  induction l1 with
  | nil =>
    intro l2 h
    simp [waitLoop, hk, hf]
  | cons x xs ih =>
    intro l2 h
    obtain ⟨s, hs, hsucc⟩ := h x (by simp)
    have hxs := ih l2 (fun j hj => h j (by simp [hj]))
    simp [waitLoop, hs, hsucc, hxs]

theorem range_split_at (n k : Nat) (h : k < n) :
    List.range n =
      List.range k ++ k :: ((List.range (n - k - 1)).map (fun t => k + 1 + t)) := by
  obtain ⟨m, hm⟩ : ∃ m, n - k - 1 = m := ⟨_, rfl⟩
  rw [hm]
  have hn : n = k + (m + 1) := by omega
  rw [hn, List.range_add, List.range_succ_eq_map]
  simp only [List.map_cons, List.map_map, Nat.add_zero]
  congr 2
  apply List.map_congr_left
  intro x _
  simp only [Function.comp_apply]
  omega

/-- Claim C1 (counterexample): in the two-stage pipeline `false | cat`
where stage 0 exits 1 and stage 1 exits 0, both stages are spawned but
only one child is ever waited on — the wait loop returns the failure as
soon as it observes stage 0's non-zero status and leaves stage 1
un-waited, contradicting "every spawned stage is still run to completion
and awaited". -/
theorem pipeline_wait_skips_children_after_failure :
    (exTwoStage.try_native_pipeline osStage0Fails false).children.length = 2 ∧
    (exTwoStage.try_native_pipeline osStage0Fails false).failed = true ∧
    (exTwoStage.try_native_pipeline osStage0Fails false).waitedCount = 1 := by
  decide

/-- Claim C1 (amended): if every stage spawns and every wait succeeds at
the OS level, and stage `k` is the first whose collected status is
non-successful, then all stages were spawned, the overall result returned
to the caller is a failure, and exactly the children up to and including
stage `k` are waited on — the children after the first failing stage are
left un-waited. -/
theorem pipeline_nonzero_exit_fails_waits_prefix (p : Pipeline) (os : OS)
    (capture : Bool) (k : Nat) (sk : ExitStatus)
    (hspawn : ∀ j, os.spawnErr j = none)
    (hpipe : ∀ id, os.pipeErr id = none)
    (hclone : ∀ id, os.cloneErr id = none)
    (hread : os.readErr = none)
    (hk : k < p.connections.length)
    (hbefore : ∀ j, j < k → ∃ s, os.waitRes j = Except.ok s ∧ s.success = true)
    (hkres : os.waitRes k = Except.ok sk)
    (hfail : sk.success = false) :
    (p.try_native_pipeline os capture).children.length = p.connections.length ∧
    (∃ e, (p.try_native_pipeline os capture).result = Except.error e) ∧
    (p.try_native_pipeline os capture).waitedCount = k + 1 := by
  obtain ⟨hsl1, hsl2, _, _⟩ :=
    spawnLoop_ok os p.input capture hspawn hpipe hclone p.connections 0
      initialSpawnState
  rcases hrun : spawnLoop os p.input capture p.connections 0 initialSpawnState
    with ⟨st, err⟩
  rw [hrun] at hsl1 hsl2
  simp only at hsl1 hsl2
  subst hsl1
  have hlen : st.children.length = p.connections.length := by
    rw [hsl2]
    simp [initialSpawnState, mkRecords_length]
  obtain ⟨bs, hbs⟩ := readCaptured_ok os capture st.children hread
  have hw : waitLoop os (List.range st.children.length) =
      (Except.error { message := "Command failed with exit code: " ++
          formatCodeOpt sk.code, source := none }, k + 1) := by
    rw [hlen, range_split_at p.connections.length k hk]
    have hfstfail := waitLoop_first_fail os k sk hkres hfail (List.range k)
      ((List.range (p.connections.length - k - 1)).map (fun t => k + 1 + t))
      (fun j hj => hbefore j (List.mem_range.mp hj))
    simpa using hfstfail
  have hrr : p.try_native_pipeline os capture =
      { result := Except.error
          { message := ("Command failed with exit code: " ++ formatCodeOpt sk.code),
            source := none },
        children := st.children, waitedCount := k + 1,
        inputThreadAt := st.inputThreadAt, syncWrite := false,
        pipesCreated := st.nextPipeId } := by
    simp only [Pipeline.try_native_pipeline, hrun, hbs, hw]
  rw [hrr]
  exact ⟨hlen, ⟨_, rfl⟩, rfl⟩

/-- Witness for the amended claim C1 at the concrete pipeline
`false | cat` with stage 0 exiting 1. -/
theorem pipeline_nonzero_exit_fails_waits_prefix_inst :
    (exTwoStage.try_native_pipeline osStage0Fails true).children.length = 2 ∧
    (∃ e, (exTwoStage.try_native_pipeline osStage0Fails true).result =
      Except.error e) ∧
    (exTwoStage.try_native_pipeline osStage0Fails true).waitedCount = 1 := by
  have h := pipeline_nonzero_exit_fails_waits_prefix exTwoStage osStage0Fails
    true 0 (ExitStatus.exited 1) (fun j => rfl) (fun i => rfl) (fun i => rfl)
    rfl (by decide) (fun j hj => absurd hj (Nat.not_lt_zero j)) rfl (by decide)
  simpa using h

/-- Shared fact: a spawn failure at stage `k` (all earlier spawns
succeeding) makes `try_native_pipeline` return the spawn error naming
stage `k`'s program, with exactly the stages before `k` spawned and none
of them waited on. -/
theorem try_native_spawn_fail (p : Pipeline) (os : OS) (capture : Bool)
    (k : Nat) (e : String) (c : Cmd) (m : PipeMode)
    (hpipe : ∀ id, os.pipeErr id = none)
    (hclone : ∀ id, os.cloneErr id = none)
    (hget : p.connections[k]? = some (c, m))
    (hbefore : ∀ j, j < k → os.spawnErr j = none)
    (hfail : os.spawnErr k = some e) :
    (p.try_native_pipeline os capture).result =
      Except.error { message := "Failed to spawn command: " ++ c.program,
                     source := some e } ∧
    (p.try_native_pipeline os capture).children.length = k ∧
    (p.try_native_pipeline os capture).waitedCount = 0 := by
  have hb0 : ∀ j, j < 0 + k → os.spawnErr j = none := by
    intro j hj
    exact hbefore j (by omega)
  have hf0 : os.spawnErr (0 + k) = some e := by simpa using hfail
  obtain ⟨h1, h2⟩ := spawnLoop_fail os p.input capture e hpipe hclone
    p.connections 0 initialSpawnState k c m hget hb0 hf0
  rcases hrun : spawnLoop os p.input capture p.connections 0 initialSpawnState
    with ⟨st, err⟩
  rw [hrun] at h1 h2
  simp only at h1 h2
  subst h1
  rw [try_native_fail_fields p os capture st _ hrun]
  refine ⟨rfl, ?_, rfl⟩
  simpa [initialSpawnState] using h2

/-- Claim C2 (counterexample): in the two-stage pipeline `false | cat`
where spawning stage 1 fails, stage 0 was spawned but zero children are
waited on before the error is returned — the already-spawned child is
dropped without being waited, contradicting "every stage already spawned
is still waited on and cleaned up before the error is returned". -/
theorem spawn_failure_leaves_spawned_children_unwaited :
    (exTwoStage.try_native_pipeline osSpawn1Fails false).children.length = 1 ∧
    (exTwoStage.try_native_pipeline osSpawn1Fails false).failed = true ∧
    (exTwoStage.try_native_pipeline osSpawn1Fails false).waitedCount = 0 := by
  decide

/-- Claim C2 (amended): if spawning stage `k` fails with an OS error (all
earlier spawns succeeding), stages `k+1` and later are never started —
exactly `k` children exist — and the spawn error naming stage `k`'s
program is returned to the caller; the already-spawned stages `0..k-1`
are not waited on (they are dropped with the error). -/
theorem spawn_failure_aborts_spawning (p : Pipeline) (os : OS) (capture : Bool)
    (k : Nat) (e : String) (c : Cmd) (m : PipeMode)
    (hpipe : ∀ id, os.pipeErr id = none)
    (hclone : ∀ id, os.cloneErr id = none)
    (hget : p.connections[k]? = some (c, m))
    (hbefore : ∀ j, j < k → os.spawnErr j = none)
    (hfail : os.spawnErr k = some e) :
    (p.try_native_pipeline os capture).result =
      Except.error { message := "Failed to spawn command: " ++ c.program,
                     source := some e } ∧
    (p.try_native_pipeline os capture).children.length = k ∧
    (p.try_native_pipeline os capture).waitedCount = 0 :=
  try_native_spawn_fail p os capture k e c m hpipe hclone hget hbefore hfail

/-- Witness for the amended claim C2 at the concrete pipeline
`false | cat` with stage 1 failing to spawn. -/
theorem spawn_failure_aborts_spawning_inst :
    (exTwoStage.try_native_pipeline osSpawn1Fails true).result =
      Except.error { message := "Failed to spawn command: " ++ "cat",
                     source := some "No such file or directory (os error 2)" } ∧
    (exTwoStage.try_native_pipeline osSpawn1Fails true).children.length = 1 ∧
    (exTwoStage.try_native_pipeline osSpawn1Fails true).waitedCount = 0 := by
  have h := spawn_failure_aborts_spawning exTwoStage osSpawn1Fails true 1
    "No such file or directory (os error 2)" (Cmd.new "cat") PipeMode.Stdout
    (fun i => rfl) (fun i => rfl) rfl
    (fun j hj => by
      interval_cases j
      · rfl)
    rfl
  simpa using h

/-- Claim C8: constructing a command spec never validates the program
name — any string, the empty string included, is recorded verbatim with
no arguments, no environment overrides and no working directory — and an
error appears only when the OS fails the spawn, in which case the error
returned to the caller names the failing program. -/
theorem no_build_time_validation_spawn_error_names_program :
    (∀ s, (Cmd.new s).program = s ∧ (Cmd.new s).args = [] ∧
      (Cmd.new s).envs = [] ∧ (Cmd.new s).currentDir = none) ∧
    (∀ (p : Pipeline) (os : OS) (capture : Bool) (k : Nat) (e : String)
        (c : Cmd) (m : PipeMode),
      (∀ id, os.pipeErr id = none) → (∀ id, os.cloneErr id = none) →
      p.connections[k]? = some (c, m) →
      (∀ j, j < k → os.spawnErr j = none) →
      os.spawnErr k = some e →
      (p.try_native_pipeline os capture).result =
        Except.error { message := "Failed to spawn command: " ++ c.program,
                       source := some e }) := by
  constructor
  · intro s
    exact ⟨rfl, rfl, rfl, rfl⟩
  · intro p os capture k e c m hpipe hclone hget hbefore hfail
    exact (try_native_spawn_fail p os capture k e c m hpipe hclone hget
      hbefore hfail).1

/-- Witness for claim C8: the empty program name is accepted at build
time, and a pipeline whose stage 0 program cannot be executed fails at
spawn time with an error naming that program. -/
theorem no_build_time_validation_spawn_error_names_program_inst :
    (Cmd.new "").program = "" ∧
    ((((Cmd.new "nonexistent_command_12345").pipe (Cmd.new "cat")).try_native_pipeline
        osSpawnAllFail false).result =
      Except.error
        { message := ("Failed to spawn command: " ++ "nonexistent_command_12345"),
          source := some "No such file or directory (os error 2)" }) := by
  constructor
  · exact (no_build_time_validation_spawn_error_names_program.1 "").1
  · exact no_build_time_validation_spawn_error_names_program.2
      ((Cmd.new "nonexistent_command_12345").pipe (Cmd.new "cat")) osSpawnAllFail
      false 0 "No such file or directory (os error 2)"
      (Cmd.new "nonexistent_command_12345") PipeMode.Stdout
      (fun i => rfl) (fun i => rfl) rfl
      (fun j hj => absurd hj (Nat.not_lt_zero j)) rfl

/-- Claim C3 (counterexample): for a pipeline of exactly one stage with
external input, the bytes are written to the child's stdin synchronously
on the calling thread (the single-command delegation path) and no
background input thread is ever started — contradicting "copied ... by a
dedicated background thread ... never synchronously on the calling
thread". -/
theorem single_stage_input_written_synchronously :
    (exSingleWithInput.execute_internal okOS true).syncWrite = true ∧
    (exSingleWithInput.execute_internal okOS true).inputThreadAt = none := by
  decide

/-- Claim C3 (amended): for a pipeline of two or more stages with
external input, the input is fed to stage 0's stdin by a dedicated
background thread started right after stage 0 is spawned and before any
later stage is spawned (the thread starts when exactly one child exists),
and nothing is written synchronously on the calling thread; but a
pipeline of exactly one stage is delegated to plain command execution,
which writes the input synchronously on the calling thread and starts no
thread. -/
theorem input_feeding_thread_policy (p : Pipeline) (os : OS) (capture : Bool)
    (hspawn : ∀ j, os.spawnErr j = none)
    (hpipe : ∀ id, os.pipeErr id = none)
    (hclone : ∀ id, os.cloneErr id = none) :
    (2 ≤ p.connections.length → p.input.isSome = true →
      (p.execute_internal os capture).inputThreadAt = some 1 ∧
      (p.execute_internal os capture).syncWrite = false) ∧
    (p.connections.length = 1 → p.input.isSome = true →
      (p.execute_internal os capture).syncWrite = true ∧
      (p.execute_internal os capture).inputThreadAt = none) := by
  constructor
  · intro hlen hin
    rcases hconn : p.connections with _ | ⟨⟨c, m⟩, rest⟩
    · rw [hconn] at hlen
      simp at hlen
    · have hrest : rest.isEmpty = false := by
        cases rest with
        | nil => rw [hconn] at hlen; simp at hlen
        | cons a b => rfl
      have hexe : p.execute_internal os capture =
          p.try_native_pipeline os capture := by
        simp [Pipeline.execute_internal, hconn, hrest]
      rw [hexe]
      obtain ⟨_, _, hT3, hT4⟩ := try_native_pipeline_fields p os capture
      obtain ⟨_, _, _, hsl4⟩ := spawnLoop_ok os p.input capture hspawn hpipe
        hclone p.connections 0 initialSpawnState
      refine ⟨?_, hT4⟩
      rw [hT3, hsl4]
      have hc : (0 = 0 ∧ p.input.isSome = true ∧ p.connections ≠ []) :=
        ⟨rfl, hin, by rw [hconn]; simp⟩
      rw [if_pos hc]
      rfl
  · intro hlen hin
    rcases hconn : p.connections with _ | ⟨⟨c, m⟩, rest⟩
    · rw [hconn] at hlen
      simp at hlen
    · have hrest : rest = [] := by
        rw [hconn] at hlen
        simpa using hlen
      subst hrest
      rcases hs : p.input with _ | s
      · rw [hs] at hin
        simp at hin
      · have hexe : p.execute_internal os capture =
            Cmd.execute_internal { c with input := some s } os capture false := by
          simp [Pipeline.execute_internal, hconn, hs]
        rw [hexe]
        cases hw : os.writeErr with
        | some e =>
          simp [Cmd.execute_internal, hspawn, hw, build_std_command_static]
        | none =>
          cases hwait : os.waitRes 0 with
          | error e2 =>
            simp [Cmd.execute_internal, hspawn, hw, hwait,
              build_std_command_static]
          | ok status =>
            cases hst : status.success <;>
              simp [Cmd.execute_internal, hspawn, hw, hwait, hst,
                build_std_command_static]

/-- Witness for the amended claim C3: a two-stage pipeline with input
feeds it from a background thread started after stage 0's spawn, while
the single-stage pipeline writes it synchronously. -/
theorem input_feeding_thread_policy_inst :
    ((exTwoStageWithInput.execute_internal okOS true).inputThreadAt = some 1 ∧
      (exTwoStageWithInput.execute_internal okOS true).syncWrite = false) ∧
    ((exSingleWithInput.execute_internal okOS true).syncWrite = true ∧
      (exSingleWithInput.execute_internal okOS true).inputThreadAt = none) := by
  constructor
  · exact (input_feeding_thread_policy exTwoStageWithInput okOS true
      (fun j => rfl) (fun i => rfl) (fun i => rfl)).1 (by decide) rfl
  · exact (input_feeding_thread_policy exSingleWithInput okOS true
      (fun j => rfl) (fun i => rfl) (fun i => rfl)).2 rfl rfl

/-- Claim C4: in a successful run, the orchestrator creates exactly one
OS pipe per edge (`n - 1` pipes for `n` stages; the pipe of edge `i→i+1`
is pipe `i`), wires the write end to stage `i`'s streams according to
that edge's mode — `Stdout`: stdout only; `Stderr`: stderr only; `Both`:
stdout plus a duplicated handle of the same write end on stderr — and in
every case hands the pipe's read end to stage `i+1` as its stdin; the
modes of different edges act independently (the statement quantifies over
arbitrary mode assignments). -/
theorem edge_pipe_wiring (p : Pipeline) (os : OS) (capture : Bool)
    (hspawn : ∀ j, os.spawnErr j = none)
    (hpipe : ∀ id, os.pipeErr id = none)
    (hclone : ∀ id, os.cloneErr id = none) :
    (p.try_native_pipeline os capture).children.length = p.connections.length ∧
    (p.try_native_pipeline os capture).pipesCreated = p.connections.length - 1 ∧
    (∀ i ci mi cn mn,
      p.connections[i]? = some (ci, mi) →
      p.connections[i + 1]? = some (cn, mn) →
      ∃ ri rn,
        (p.try_native_pipeline os capture).children[i]? = some ri ∧
        (p.try_native_pipeline os capture).children[i + 1]? = some rn ∧
        rn.stdin = StdioSpec.pipeRead i ∧
        (mn = PipeMode.Stdout →
          ri.stdout = StdioSpec.pipeWrite i ∧ ri.stderr = StdioSpec.inherit) ∧
        (mn = PipeMode.Stderr →
          ri.stderr = StdioSpec.pipeWrite i ∧ ri.stdout = StdioSpec.inherit) ∧
        (mn = PipeMode.Both →
          ri.stdout = StdioSpec.pipeWrite i ∧
          ri.stderr = StdioSpec.pipeWriteDup i)) := by
  obtain ⟨hch, hpc, _, _⟩ := try_native_pipeline_fields p os capture
  obtain ⟨_, hsl2, hsl3, _⟩ := spawnLoop_ok os p.input capture hspawn hpipe
    hclone p.connections 0 initialSpawnState
  have hch2 : (p.try_native_pipeline os capture).children =
      mkRecords p.input capture p.connections 0 none 0 := by
    rw [hch, hsl2]
    simp [initialSpawnState]
  refine ⟨?_, ?_, ?_⟩
  · rw [hch2, mkRecords_length]
  · rw [hpc, hsl3]
    simp [initialSpawnState]
  · intro i ci mi cn mn hgi hgn
    have hri := mkRecords_getElem? p.input capture p.connections 0 none 0 i ci
      mi hgi
    have hrn := mkRecords_getElem? p.input capture p.connections 0 none 0
      (i + 1) cn mn hgn
    rw [hch2]
    refine ⟨_, _, hri, hrn, ?_, ?_, ?_, ?_⟩
    · show stdinSpecAt p.input 0 none 0 (i + 1) = StdioSpec.pipeRead i
      simp [stdinSpecAt]
    · intro hmn
      subst hmn
      constructor
      · show (outSpecAt capture p.connections 0 i).1 = StdioSpec.pipeWrite i
        simp [outSpecAt, hgn]
      · show (outSpecAt capture p.connections 0 i).2 = StdioSpec.inherit
        simp [outSpecAt, hgn]
    · intro hmn
      subst hmn
      constructor
      · show (outSpecAt capture p.connections 0 i).2 = StdioSpec.pipeWrite i
        simp [outSpecAt, hgn]
      · show (outSpecAt capture p.connections 0 i).1 = StdioSpec.inherit
        simp [outSpecAt, hgn]
    · intro hmn
      subst hmn
      constructor
      · show (outSpecAt capture p.connections 0 i).1 = StdioSpec.pipeWrite i
        simp [outSpecAt, hgn]
      · show (outSpecAt capture p.connections 0 i).2 = StdioSpec.pipeWriteDup i
        simp [outSpecAt, hgn]

/-- Witness for claim C4 at the mixed-mode pipeline
`a --Stderr--> b --Both--> c`: two pipes are created; edge 0 wires `a`'s
stderr (only) to pipe 0 whose read end is `b`'s stdin; edge 1 wires `b`'s
stdout and a duplicate handle of the same write end on `b`'s stderr into
pipe 1 whose read end is `c`'s stdin. -/
theorem edge_pipe_wiring_inst :
    (exMixedModes.try_native_pipeline okOS true).children.length = 3 ∧
    (exMixedModes.try_native_pipeline okOS true).pipesCreated = 2 ∧
    (∃ r0 r1,
      (exMixedModes.try_native_pipeline okOS true).children[0]? = some r0 ∧
      (exMixedModes.try_native_pipeline okOS true).children[1]? = some r1 ∧
      r1.stdin = StdioSpec.pipeRead 0 ∧
      r0.stderr = StdioSpec.pipeWrite 0 ∧ r0.stdout = StdioSpec.inherit ∧
      r1.stdout = StdioSpec.pipeWrite 1 ∧
      r1.stderr = StdioSpec.pipeWriteDup 1) := by
  have h := edge_pipe_wiring exMixedModes okOS true (fun j => rfl)
    (fun i => rfl) (fun i => rfl)
  refine ⟨by rw [h.1]; rfl, by rw [h.2.1]; rfl, ?_⟩
  obtain ⟨r0, r1, h1, h2, h3, _, h5, _⟩ := h.2.2 0 (Cmd.new "a")
    PipeMode.Stdout (Cmd.new "b") PipeMode.Stderr rfl rfl
  obtain ⟨r1b, r2, g1, _, _, _, _, g6⟩ := h.2.2 1 (Cmd.new "b")
    PipeMode.Stderr (Cmd.new "c") PipeMode.Both rfl rfl
  have hr : r1b = r1 := by
    have hgg : some r1b = some r1 := g1.symm.trans h2
    exact Option.some.inj hgg
  subst hr
  obtain ⟨h5a, h5b⟩ := h5 rfl
  obtain ⟨g6a, g6b⟩ := g6 rfl
  exact ⟨r0, r1b, h1, h2, h3, h5a, h5b, g6a, g6b⟩

theorem waitAllDiscard_ok :
    ∀ l : List PChild,
      (∀ c ∈ l, ∃ st, c.waitRes = Except.ok st) →
      waitAllDiscard l = Except.ok () := by
  intro l
  induction l with
  | nil => intro h; rfl
  | cons c cs ih =>
    intro h
    obtain ⟨st, hst⟩ := h c (by simp)
    have hcs := ih (fun x hx => h x (by simp [hx]))
    simp [waitAllDiscard, hst, hcs]

/-- Claim C10: whenever the last child's stdout was captured and reading
it back succeeds, and every `wait` succeeds at the OS level,
`PipelineHandle::output_bytes` returns `Ok` with the captured bytes — the
per-stage exit statuses are discarded on this path, so stages may have
exited non-zero (the wait-result hypothesis allows any statuses) without
making `output_bytes` an error. -/
theorem output_bytes_ignores_exit_status (h : PipelineHandle) (last : PChild)
    (bytes : List UInt8)
    (hl : h.children.getLast? = some last)
    (hs : last.stdoutRead = some (Except.ok bytes))
    (hw : ∀ c ∈ h.children, ∃ st, c.waitRes = Except.ok st) :
    h.output_bytes = Except.ok bytes := by
  simp [PipelineHandle.output_bytes, hl, hs, waitAllDiscard_ok h.children hw]

/-- Witness for claim C10: a handle whose first stage exited 1 and whose
last stage captured the bytes `[104, 105]` still returns `Ok` with those
bytes. -/
theorem output_bytes_ignores_exit_status_inst :
    exHandle.output_bytes = Except.ok [104, 105] := by
  refine output_bytes_ignores_exit_status exHandle
    { stdoutRead := some (Except.ok [104, 105]),
      waitRes := Except.ok (ExitStatus.exited 0) }
    [104, 105] rfl rfl ?_
  intro c hc
  simp only [exHandle, List.mem_cons, List.not_mem_nil, or_false] at hc
  rcases hc with rfl | rfl
  · exact ⟨ExitStatus.exited 1, rfl⟩
  · exact ⟨ExitStatus.exited 0, rfl⟩

end Scriptify
